import Mathlib

/-!
Verification of the session/authentication layer of the house_front mobile
client. The two source files under scrutiny are src/services/api.ts (HTTP
client with request/response interceptors and refresh-on-401 logic) and
src/hooks/useAuth.ts (session manager: login, logout, role normalization,
session persistence). The TypeScript is shallowly embedded: token storage
becomes an explicit record of optional strings, each network interaction is
resolved by an environment of backend responses, and the interceptor chain
becomes a fuel-indexed dispatch function that records a trace of outbound
events.
-/

namespace HouseFront

/-- Character-list helper: does the first list occur as a leading segment of
the second list. Mirrors the semantics used by the JavaScript method
String.prototype.includes when probing each position. -/
def startsWithL : List Char → List Char → Bool
  | [], _ => true
  | _ :: _, [] => false
  | p :: ps, c :: cs => p == c && startsWithL ps cs

/-- Character-list helper: does the pattern occur anywhere in the list. -/
def hasSub (pat : List Char) : List Char → Bool
  | [] => startsWithL pat []
  | c :: cs => startsWithL pat (c :: cs) || hasSub pat cs

/-- Embedding of the JavaScript expression s.includes(pat) on strings. -/
def strIncludes (s pat : String) : Bool := hasSub pat.data s.data

/-- Embedding of JavaScript truthiness on a possibly absent string: null and
the empty string are falsy, every other string is truthy. -/
def jsTruthy : Option String → Bool
  | some s => !s.isEmpty
  | none => false

/-- Embedding of the JavaScript expression a or-else d for a possibly absent
string a with string default d (the logical-or idiom used for fallbacks in
useAuth.ts): the default is taken when a is null or empty. -/
def jsOr (a : Option String) (d : String) : String :=
  match a with
  | some s => if s.isEmpty then d else s
  | none => d

/-! ## Token store and requests, from src/services/api.ts

The secure store holds three keys touched by the interceptor chain:
access_token, refresh_token and current_user. A request configuration
carries its url, an optional Authorization header value, and the retry
marker written on it by the response interceptor. -/

/-- The secure-store state visible to the interceptor chain of
src/services/api.ts: values under the keys access_token, refresh_token and
current_user. -/
structure Store where
  access : Option String
  refresh : Option String
  currentUser : Option String
  deriving DecidableEq, Repr

/-- An axios request configuration as the interceptors of
src/services/api.ts read and write it: url, Authorization header, and the
per-request retry marker written as originalRequest underscore retry. -/
structure Req where
  url : String
  authHeader : Option String
  retryFlag : Bool
  deriving DecidableEq, Repr

/-- Outcome of the POST to /auth/token/refresh/ made at api.ts line 49:
either a payload with a new access token and an optional rotated refresh
token, or a failure (non-2xx or network error, which throws). -/
inductive RefreshOutcome where
  | ok (access : String) (refresh : Option String)
  | fail
  deriving DecidableEq, Repr

/-- Backend environment for one dispatch through the api instance: the
status returned for each concrete outgoing request (none models a network
failure with no response, matching the optional chaining on
error.response at api.ts line 43), and the outcome of a refresh POST. -/
structure Env where
  responses : Req → Option Nat
  refreshResp : RefreshOutcome

/-- Observable network events of one dispatch: a request actually sent to
the backend (after the request interceptor ran), or a POST to the refresh
endpoint carrying the stored refresh token. -/
inductive Event where
  | send (r : Req)
  | refreshPost (rt : String)
  deriving DecidableEq, Repr

/-- Result of a dispatch as seen by the caller of the api instance: a
fulfilled 2xx response, a rejected error carrying the status of the last
response (none for a network failure), or fuel exhaustion (unreachable at
the fuel used in the theorems, present only to make recursion total). -/
inductive DResult where
  | ok (status : Nat)
  | err (status : Option Nat)
  | fuelOut
  deriving DecidableEq, Repr

/-- The request interceptor of api.ts lines 18 to 34: requests whose url
contains /auth/ are passed through untouched; otherwise, when a truthy
access token is stored, the Authorization header is set to Bearer followed
by that token. -/
def applyRequestInterceptor (st : Store) (config : Req) : Req :=
  if strIncludes config.url "/auth/" then config
  else
    match st.access with
    | some token =>
        if token.isEmpty then config
        else { config with authHeader := some ("Bearer " ++ token) }
    | none => config

/-- One layer of the response-error handling of api.ts lines 37 to 76,
parametrized by the recursive re-dispatch used for the retried request
(api originalRequest at line 63). Given the response status of the sent
request, it either fulfills (2xx), or runs the 401 branch: when the status
is 401, the request was not yet retried and its url does not contain
/auth/token/, the retry marker is set, the stored refresh token is read,
and when truthy a refresh POST is made; on refresh success the new access
token is stored (and the rotated refresh token when truthy), the
Authorization header is rewritten and the request re-dispatched; on refresh
failure the access and refresh tokens are deleted and the original error
is rejected. In every other case the error is rejected unchanged. -/
def dispatchBody (rec : Store → Req → Store × DResult × List Event)
    (env : Env) (st : Store) (config : Req) : Store × DResult × List Event :=
  let req := applyRequestInterceptor st config
  match env.responses req with
  | none => (st, DResult.err none, [Event.send req])
  | some status =>
    if 200 ≤ status ∧ status < 300 then (st, DResult.ok status, [Event.send req])
    else if status == 401 && !req.retryFlag && !strIncludes req.url "/auth/token/" then
      match st.refresh with
      | some rt =>
          if rt.isEmpty then (st, DResult.err (some status), [Event.send req])
          else
            match env.refreshResp with
            | RefreshOutcome.ok access newRefresh =>
                let st1 : Store := { st with access := some access }
                let st2 : Store :=
                  if jsTruthy newRefresh
                  then { st1 with refresh := newRefresh }
                  else st1
                let orig2 : Req :=
                  { req with retryFlag := true, authHeader := some ("Bearer " ++ access) }
                let out := rec st2 orig2
                (out.1, out.2.1, Event.send req :: Event.refreshPost rt :: out.2.2)
            | RefreshOutcome.fail =>
                ({ st with access := none, refresh := none },
                 DResult.err (some status), [Event.send req, Event.refreshPost rt])
      | none => (st, DResult.err (some status), [Event.send req])
    else (st, DResult.err (some status), [Event.send req])

/-- Fuel-indexed dispatch through the api instance: request interceptor,
backend, response interceptor, with the retried request re-entering the
same pipeline. The retry marker bounds real recursion depth at two, so any
fuel of at least two computes the full behaviour. -/
def dispatchF (env : Env) : Nat → Store → Req → Store × DResult × List Event
  | 0, st, _ => (st, DResult.fuelOut, [])
  | Nat.succ fuel, st, config => dispatchBody (dispatchF env fuel) env st config

/-- A dispatch of a fresh request through the api instance of
src/services/api.ts: fuel two suffices because the retry marker stops any
third pass. -/
def dispatch (env : Env) (st : Store) (config : Req) : Store × DResult × List Event :=
  dispatchF env 2 st config

/-- The requests actually sent to the backend during a dispatch, in
order. -/
def sentRequests (tr : List Event) : List Req :=
  tr.filterMap fun e =>
    match e with
    | Event.send r => some r
    | _ => none

/-- How many requests were sent to the backend during a dispatch. -/
def sendCount (tr : List Event) : Nat := (sentRequests tr).length

/-- How many POSTs to the refresh endpoint occurred during a dispatch. -/
def refreshCount (tr : List Event) : Nat :=
  (tr.filter fun e =>
    match e with
    | Event.refreshPost _ => true
    | _ => false).length

/-- The re-issued requests of a dispatch: every request sent after the
first one. -/
def reissues (tr : List Event) : List Req := (sentRequests tr).drop 1

/-! ## Helper lemmas about the request interceptor and dispatch unfolding -/

theorem reqInt_url (st : Store) (c : Req) :
    (applyRequestInterceptor st c).url = c.url := by
  unfold applyRequestInterceptor
  split
  · rfl
  · cases st.access with
    | none => rfl
    | some t => dsimp only; split <;> rfl

theorem reqInt_retryFlag (st : Store) (c : Req) :
    (applyRequestInterceptor st c).retryFlag = c.retryFlag := by
  unfold applyRequestInterceptor
  split
  · rfl
  · cases st.access with
    | none => rfl
    | some t => dsimp only; split <;> rfl

theorem reqInt_header_bearer (st : Store) (c : Req) (t : String)
    (hacc : st.access = some t) (hhdr : c.authHeader = some ("Bearer " ++ t)) :
    (applyRequestInterceptor st c).authHeader = some ("Bearer " ++ t) := by
  unfold applyRequestInterceptor
  rw [hacc]
  split
  · exact hhdr
  · dsimp only
    split
    · exact hhdr
    · rfl

theorem dispatchF_one (env : Env) (st : Store) (c : Req) :
    dispatchF env 1 st c = dispatchBody (dispatchF env 0) env st c := rfl

theorem dispatch_eq (env : Env) (st : Store) (c : Req) :
    dispatch env st c = dispatchBody (dispatchF env 1) env st c := rfl

theorem dispatchF_one_retried_store (env : Env) (st : Store) (c : Req)
    (hc : c.retryFlag = true) : (dispatchF env 1 st c).1 = st := by
  have hrf : (applyRequestInterceptor st c).retryFlag = true := by
    rw [reqInt_retryFlag]; exact hc
  rw [dispatchF_one]
  simp only [dispatchBody]
  cases h : env.responses (applyRequestInterceptor st c) with
  | none => rfl
  | some s =>
    dsimp only
    split
    · rfl
    · simp [hrf]

theorem dispatchF_one_retried_sent (env : Env) (st : Store) (c : Req)
    (hc : c.retryFlag = true) :
    sentRequests (dispatchF env 1 st c).2.2 = [applyRequestInterceptor st c] := by
  have hrf : (applyRequestInterceptor st c).retryFlag = true := by
    rw [reqInt_retryFlag]; exact hc
  rw [dispatchF_one]
  simp only [dispatchBody]
  cases h : env.responses (applyRequestInterceptor st c) with
  | none => rfl
  | some s =>
    dsimp only
    split
    · rfl
    · simp [hrf, sentRequests]

theorem dispatchF_one_retried_rc (env : Env) (st : Store) (c : Req)
    (hc : c.retryFlag = true) :
    refreshCount (dispatchF env 1 st c).2.2 = 0 := by
  have hrf : (applyRequestInterceptor st c).retryFlag = true := by
    rw [reqInt_retryFlag]; exact hc
  rw [dispatchF_one]
  simp only [dispatchBody]
  cases h : env.responses (applyRequestInterceptor st c) with
  | none => rfl
  | some s =>
    dsimp only
    split
    · rfl
    · simp [hrf, refreshCount]

theorem dispatchF_one_retried_result (env : Env) (st : Store) (c : Req)
    (hc : c.retryFlag = true)
    (h : env.responses (applyRequestInterceptor st c) = some 401) :
    (dispatchF env 1 st c).2.1 = DResult.err (some 401) := by
  have hrf : (applyRequestInterceptor st c).retryFlag = true := by
    rw [reqInt_retryFlag]; exact hc
  rw [dispatchF_one]
  simp only [dispatchBody, h]
  split
  next h2 => exact absurd h2 (by omega)
  next => simp [hrf]

theorem sentRequests_send_cons (r : Req) (tr : List Event) :
    sentRequests (Event.send r :: tr) = r :: sentRequests tr := rfl

theorem sentRequests_refresh_cons (s : String) (tr : List Event) :
    sentRequests (Event.refreshPost s :: tr) = sentRequests tr := rfl

theorem refreshCount_send_cons (r : Req) (tr : List Event) :
    refreshCount (Event.send r :: tr) = refreshCount tr := rfl

theorem refreshCount_refresh_cons (s : String) (tr : List Event) :
    refreshCount (Event.refreshPost s :: tr) = refreshCount tr + 1 := rfl

/-- Claim C1: for a request to a path outside /auth/token/ that receives a
401 and was not yet retried, with a truthy refresh token stored and the
refresh endpoint answering with a new token payload, exactly one refresh
POST occurs, the new access token is stored (and the new refresh token
when the payload carries one), and the original request is re-issued
exactly once, to the same url, carrying Bearer followed by the new access
token. -/
theorem C1_single_refresh_single_retry
    (env : Env) (st : Store) (c : Req) (rt access : String) (ropt : Option String)
    (hurl : strIncludes c.url "/auth/token/" = false)
    (hretry : c.retryFlag = false)
    (hrt : st.refresh = some rt)
    (hrtne : rt.isEmpty = false)
    (h401 : env.responses (applyRequestInterceptor st c) = some 401)
    (hok : env.refreshResp = RefreshOutcome.ok access ropt) :
    refreshCount (dispatch env st c).2.2 = 1 ∧
    sendCount (dispatch env st c).2.2 = 2 ∧
    (reissues (dispatch env st c).2.2).map Req.authHeader = [some ("Bearer " ++ access)] ∧
    (reissues (dispatch env st c).2.2).map Req.url = [c.url] ∧
    (dispatch env st c).1.access = some access ∧
    (dispatch env st c).1.refresh = (if jsTruthy ropt then ropt else some rt) := by
  have hrf : (applyRequestInterceptor st c).retryFlag = false := by
    rw [reqInt_retryFlag]; exact hretry
  have hiurl : strIncludes (applyRequestInterceptor st c).url "/auth/token/" = false := by
    rw [reqInt_url]; exact hurl
  rw [dispatch_eq]
  simp only [dispatchBody, h401, hrf, hiurl, hrt, hrtne, hok]
  norm_num
  simp only [refreshCount_send_cons, refreshCount_refresh_cons, dispatchF_one_retried_rc,
    sendCount, sentRequests_send_cons, sentRequests_refresh_cons, dispatchF_one_retried_sent,
    reissues, dispatchF_one_retried_store, List.length_cons, List.length_nil,
    List.drop_succ_cons, List.drop_zero, List.map_cons, List.map_nil,
    reqInt_url, reqInt_retryFlag, reqInt_header_bearer]
  cases hjr : jsTruthy ropt <;>
    simp [hjr, reqInt_header_bearer, reqInt_url, reqInt_retryFlag]

/-- Concrete backend for the C1 witness: first pass answers 401, the
retried request answers 200, refresh succeeds with a rotated pair. -/
def envC1 : Env :=
  { responses := fun r => if r.retryFlag then some 200 else some 401,
    refreshResp := RefreshOutcome.ok "newAccess" (some "newRefresh") }

/-- Concrete initial store for the C1 witness. -/
def stC1 : Store :=
  { access := some "oldAccess", refresh := some "oldRefresh", currentUser := some "u" }

/-- Concrete request for the C1 witness. -/
def reqC1 : Req := { url := "/designs/", authHeader := none, retryFlag := false }

/-- Witness for claim C1 at a concrete scenario. -/
theorem C1_single_refresh_single_retry_witness :
    (strIncludes reqC1.url "/auth/token/" = false ∧
     reqC1.retryFlag = false ∧
     stC1.refresh = some "oldRefresh" ∧
     ("oldRefresh" : String).isEmpty = false ∧
     envC1.responses (applyRequestInterceptor stC1 reqC1) = some 401 ∧
     envC1.refreshResp = RefreshOutcome.ok "newAccess" (some "newRefresh")) ∧
    (refreshCount (dispatch envC1 stC1 reqC1).2.2 = 1 ∧
     sendCount (dispatch envC1 stC1 reqC1).2.2 = 2 ∧
     (reissues (dispatch envC1 stC1 reqC1).2.2).map Req.authHeader
       = [some ("Bearer " ++ "newAccess")] ∧
     (reissues (dispatch envC1 stC1 reqC1).2.2).map Req.url = [reqC1.url] ∧
     (dispatch envC1 stC1 reqC1).1.access = some "newAccess" ∧
     (dispatch envC1 stC1 reqC1).1.refresh
       = (if jsTruthy (some "newRefresh") then some "newRefresh" else some "oldRefresh")) :=
  ⟨⟨by decide, by decide, by decide, by decide, by decide, by decide⟩,
   C1_single_refresh_single_retry envC1 stC1 reqC1 "oldRefresh" "newAccess"
     (some "newRefresh") (by decide) (by decide) (by decide) (by decide)
     (by decide) (by decide)⟩

/-- Claim C2: the refresh attempt happens at most once per original
request. Against a backend that rejects every request with 401 (so the
retried request receives a second 401), exactly one refresh POST occurs
and the dispatch rejects with the terminal 401 error. -/
theorem C2_refresh_at_most_once
    (env : Env) (st : Store) (c : Req) (rt access : String) (ropt : Option String)
    (hurl : strIncludes c.url "/auth/token/" = false)
    (hretry : c.retryFlag = false)
    (hrt : st.refresh = some rt)
    (hrtne : rt.isEmpty = false)
    (hresp : ∀ r, env.responses r = some 401)
    (hok : env.refreshResp = RefreshOutcome.ok access ropt) :
    refreshCount (dispatch env st c).2.2 = 1 ∧
    sendCount (dispatch env st c).2.2 = 2 ∧
    (dispatch env st c).2.1 = DResult.err (some 401) := by
  have hrf : (applyRequestInterceptor st c).retryFlag = false := by
    rw [reqInt_retryFlag]; exact hretry
  have hiurl : strIncludes (applyRequestInterceptor st c).url "/auth/token/" = false := by
    rw [reqInt_url]; exact hurl
  rw [dispatch_eq]
  simp only [dispatchBody, hresp, hrf, hiurl, hrt, hrtne, hok]
  norm_num
  refine ⟨?_, ?_, ?_⟩
  · simp [refreshCount_send_cons, refreshCount_refresh_cons, dispatchF_one_retried_rc]
  · simp [sendCount, sentRequests_send_cons, sentRequests_refresh_cons,
      dispatchF_one_retried_sent]
  · exact dispatchF_one_retried_result env _ _ rfl (hresp _)

/-- Concrete backend for the C2 witness: every request, the retried one
included, is rejected with 401; refresh succeeds. -/
def envC2 : Env :=
  { responses := fun _ => some 401,
    refreshResp := RefreshOutcome.ok "freshAccess" none }

/-- Concrete initial store for the C2 witness. -/
def stC2 : Store :=
  { access := some "staleAccess", refresh := some "staleRefresh", currentUser := none }

/-- Concrete request for the C2 witness. -/
def reqC2 : Req := { url := "/bookings/", authHeader := none, retryFlag := false }

/-- Witness for claim C2 at a concrete scenario. -/
theorem C2_refresh_at_most_once_witness :
    (strIncludes reqC2.url "/auth/token/" = false ∧
     reqC2.retryFlag = false ∧
     stC2.refresh = some "staleRefresh" ∧
     ("staleRefresh" : String).isEmpty = false ∧
     (∀ r, envC2.responses r = some 401) ∧
     envC2.refreshResp = RefreshOutcome.ok "freshAccess" none) ∧
    (refreshCount (dispatch envC2 stC2 reqC2).2.2 = 1 ∧
     sendCount (dispatch envC2 stC2 reqC2).2.2 = 2 ∧
     (dispatch envC2 stC2 reqC2).2.1 = DResult.err (some 401)) :=
  ⟨⟨by decide, by decide, by decide, by decide, fun _ => rfl, by decide⟩,
   C2_refresh_at_most_once envC2 stC2 reqC2 "staleRefresh" "freshAccess" none
     (by decide) (by decide) (by decide) (by decide) (fun _ => rfl) (by decide)⟩

/-- Claim C5: for a request to a path outside the authentication namespace
with a truthy access token stored, the request interceptor attaches an
Authorization header equal to Bearer followed by the stored token. -/
theorem C5_bearer_header_attached
    (st : Store) (c : Req) (t : String)
    (hurl : strIncludes c.url "/auth/" = false)
    (hacc : st.access = some t)
    (htne : t.isEmpty = false) :
    (applyRequestInterceptor st c).authHeader = some ("Bearer " ++ t) := by
  unfold applyRequestInterceptor
  rw [hurl, hacc]
  simp [htne]

/-- Witness for claim C5 at a concrete scenario. -/
theorem C5_bearer_header_attached_witness :
    (strIncludes "/designs/" "/auth/" = false ∧
     (Store.mk (some "tok77") none none).access = some "tok77" ∧
     ("tok77" : String).isEmpty = false) ∧
    (applyRequestInterceptor (Store.mk (some "tok77") none none)
       (Req.mk "/designs/" none false)).authHeader = some ("Bearer " ++ "tok77") :=
  ⟨⟨by decide, by decide, by decide⟩,
   C5_bearer_header_attached (Store.mk (some "tok77") none none)
     (Req.mk "/designs/" none false) "tok77" (by decide) (by decide) (by decide)⟩

/-- Concrete backend for the C3 counterexample: every request is rejected
with 401 and the refresh endpoint succeeds. -/
def envC3 : Env :=
  { responses := fun _ => some 401,
    refreshResp := RefreshOutcome.ok "a2" none }

/-- Concrete initial store for the C3 counterexample. -/
def stC3 : Store :=
  { access := some "a1", refresh := some "r1", currentUser := none }

/-- Concrete request for the C3 counterexample: /auth/profile/ lies in the
authentication namespace but does not contain /auth/token/. -/
def reqC3 : Req := { url := "/auth/profile/", authHeader := none, retryFlag := false }

/-- Counterexample to claim C3: a request to the /auth/ path /auth/profile/
that receives a 401 does trigger a refresh attempt, because the response
interceptor only exempts urls containing /auth/token/. -/
theorem C3_counterexample :
    strIncludes reqC3.url "/auth/" = true ∧
    stC3.refresh = some "r1" ∧
    refreshCount (dispatch envC3 stC3 reqC3).2.2 = 1 := by decide

/-- Claim C3 (amended): the request interceptor passes any request to an
/auth/ path through untouched, so no Authorization header is attached; and
a 401 response never triggers a refresh for requests whose url contains
/auth/token/ (other /auth/ paths, such as /auth/profile/, do trigger a
refresh attempt on 401). -/
theorem C3_amended_auth_paths
    (st : Store) (c : Req) (env : Env) (stB : Store) (cB : Req)
    (hc : strIncludes c.url "/auth/" = true)
    (hcB : strIncludes cB.url "/auth/token/" = true)
    (h401 : env.responses (applyRequestInterceptor stB cB) = some 401) :
    applyRequestInterceptor st c = c ∧
    refreshCount (dispatch env stB cB).2.2 = 0 ∧
    (dispatch env stB cB).2.1 = DResult.err (some 401) := by
  have hiurl : strIncludes (applyRequestInterceptor stB cB).url "/auth/token/" = true := by
    rw [reqInt_url]; exact hcB
  refine ⟨?_, ?_⟩
  · unfold applyRequestInterceptor
    rw [hc]
    simp
  · rw [dispatch_eq]
    simp only [dispatchBody, h401, hiurl]
    norm_num
    simp [refreshCount]

/-- Concrete backend for the witness of the amended claim C3. -/
def envC3W : Env :=
  { responses := fun _ => some 401,
    refreshResp := RefreshOutcome.ok "w3" none }

/-- Concrete initial store for the witness of the amended claim C3. -/
def stC3W : Store :=
  { access := some "aw3", refresh := some "rw3", currentUser := none }

/-- Witness for the amended claim C3 at a concrete scenario. -/
theorem C3_amended_auth_paths_witness :
    (strIncludes "/auth/register/" "/auth/" = true ∧
     strIncludes "/auth/token/" "/auth/token/" = true ∧
     envC3W.responses (applyRequestInterceptor stC3W (Req.mk "/auth/token/" none false))
       = some 401) ∧
    (applyRequestInterceptor stC3W (Req.mk "/auth/register/" none false)
       = Req.mk "/auth/register/" none false ∧
     refreshCount (dispatch envC3W stC3W (Req.mk "/auth/token/" none false)).2.2 = 0 ∧
     (dispatch envC3W stC3W (Req.mk "/auth/token/" none false)).2.1
       = DResult.err (some 401)) :=
  ⟨⟨by decide, by decide, by decide⟩,
   C3_amended_auth_paths stC3W (Req.mk "/auth/register/" none false) envC3W stC3W
     (Req.mk "/auth/token/" none false) (by decide) (by decide) (by decide)⟩

/-- Concrete backend for the C4 counterexample: every request is rejected
with 401 and the refresh POST fails. -/
def envC4 : Env :=
  { responses := fun _ => some 401,
    refreshResp := RefreshOutcome.fail }

/-- Concrete initial store for the C4 counterexample, holding a persisted
session record under current_user. -/
def stC4 : Store :=
  { access := some "acc", refresh := some "ref", currentUser := some "sess" }

/-- Concrete request for the C4 counterexample. -/
def reqC4 : Req := { url := "/designs/", authHeader := none, retryFlag := false }

/-- Counterexample to claim C4: when the refresh POST fails, the catch
block of api.ts lines 65 to 71 deletes only access_token and
refresh_token; the persisted session record under current_user is left in
place, contradicting the claim that all three are cleared. -/
theorem C4_counterexample :
    envC4.refreshResp = RefreshOutcome.fail ∧
    (dispatch envC4 stC4 reqC4).2.1 = DResult.err (some 401) ∧
    (dispatch envC4 stC4 reqC4).1.access = none ∧
    (dispatch envC4 stC4 reqC4).1.refresh = none ∧
    (dispatch envC4 stC4 reqC4).1.currentUser = some "sess" := by decide

/-- Claim C4 (amended): whenever the refresh POST made by the 401 branch
fails, the access and refresh tokens are cleared but the persisted session
record is left unchanged, the original 401 error is propagated, and the
request is not retried. -/
theorem C4_amended_refresh_failure
    (env : Env) (st : Store) (c : Req) (rt : String)
    (hurl : strIncludes c.url "/auth/token/" = false)
    (hretry : c.retryFlag = false)
    (hrt : st.refresh = some rt)
    (hrtne : rt.isEmpty = false)
    (h401 : env.responses (applyRequestInterceptor st c) = some 401)
    (hfail : env.refreshResp = RefreshOutcome.fail) :
    (dispatch env st c).1.access = none ∧
    (dispatch env st c).1.refresh = none ∧
    (dispatch env st c).1.currentUser = st.currentUser ∧
    (dispatch env st c).2.1 = DResult.err (some 401) ∧
    refreshCount (dispatch env st c).2.2 = 1 ∧
    sendCount (dispatch env st c).2.2 = 1 := by
  have hrf : (applyRequestInterceptor st c).retryFlag = false := by
    rw [reqInt_retryFlag]; exact hretry
  have hiurl : strIncludes (applyRequestInterceptor st c).url "/auth/token/" = false := by
    rw [reqInt_url]; exact hurl
  rw [dispatch_eq]
  simp only [dispatchBody, h401, hrf, hiurl, hrt, hrtne, hfail]
  norm_num
  simp [refreshCount, sendCount, sentRequests]

/-- Witness for the amended claim C4 at a concrete scenario. -/
theorem C4_amended_refresh_failure_witness :
    (strIncludes reqC4.url "/auth/token/" = false ∧
     reqC4.retryFlag = false ∧
     stC4.refresh = some "ref" ∧
     ("ref" : String).isEmpty = false ∧
     envC4.responses (applyRequestInterceptor stC4 reqC4) = some 401 ∧
     envC4.refreshResp = RefreshOutcome.fail) ∧
    ((dispatch envC4 stC4 reqC4).1.access = none ∧
     (dispatch envC4 stC4 reqC4).1.refresh = none ∧
     (dispatch envC4 stC4 reqC4).1.currentUser = stC4.currentUser ∧
     (dispatch envC4 stC4 reqC4).2.1 = DResult.err (some 401) ∧
     refreshCount (dispatch envC4 stC4 reqC4).2.2 = 1 ∧
     sendCount (dispatch envC4 stC4 reqC4).2.2 = 1) :=
  ⟨⟨by decide, by decide, by decide, by decide, by decide, by decide⟩,
   C4_amended_refresh_failure envC4 stC4 reqC4 "ref" (by decide) (by decide)
     (by decide) (by decide) (by decide) (by decide)⟩

/-! ## Session manager, from src/hooks/useAuth.ts

The persisted state has an access token, a refresh token and a session
record in the secure store, plus a mirror session record, a role flag and
a logged-in flag in async storage. Backend interactions of login are
resolved by an environment holding the outcome of the POST to /auth/token/
and of the GET of /auth/profile/. -/

/-- The two valid user roles of useAuth.ts. -/
inductive UserRole where
  | client
  | designer
  deriving DecidableEq, Repr

/-- The string stored for a role (AsyncStorage.setItem of ROLE underscore
KEY writes user.role as a string). -/
def roleToString : UserRole → String
  | UserRole.client => "client"
  | UserRole.designer => "designer"

/-- The navigation destinations of the TabRoute type in useAuth.ts. -/
inductive Route where
  | tabsHome
  | designerDashboard
  | chooseRegister
  | loginRoute
  deriving DecidableEq, Repr

/-- The session user record built by login in useAuth.ts, restricted to
the fields the code writes. Fields the fallback path leaves absent are
optional. -/
structure SessionUser where
  id : String
  email : String
  role : UserRole
  firstName : String
  lastName : Option String
  phone : Option String
  user_type : String
  isActive : Bool
  deriving DecidableEq, Repr

/-- The persisted state touched by useAuth.ts: the secure-store keys
access_token, refresh_token and current_user, and the async-storage keys
current_user (mirror), userRole and isLoggedIn. -/
structure AuthState where
  access : Option String
  refresh : Option String
  secureUser : Option SessionUser
  asyncUser : Option SessionUser
  roleKey : Option String
  authKey : Option String
  deriving DecidableEq, Repr

/-- The helper clearAuthTokens of useAuth.ts lines 48 to 52: deletes the
secure-store keys access_token, refresh_token and current_user. -/
def clearAuthTokens (st : AuthState) : AuthState :=
  { st with access := none, refresh := none, secureUser := none }

/-- The helper setUserSession of useAuth.ts lines 55 to 63: stores the
token pair when given, then writes the user record to both stores, the
role string under userRole, and the string true under isLoggedIn. -/
def setUserSession (st : AuthState) (u : SessionUser)
    (tokens : Option (String × String)) : AuthState :=
  let st1 := match tokens with
    | some (a, r) => { st with access := some a, refresh := some r }
    | none => st
  { st1 with
    secureUser := some u
    asyncUser := some u
    roleKey := some (roleToString u.role)
    authKey := some "true" }

/-- The profile payload returned by GET /auth/profile/ as login reads it:
each field may be absent. -/
structure Profile where
  id : Option String
  email : Option String
  user_type : Option String
  first_name : Option String
  last_name : Option String
  phone : Option String
  deriving DecidableEq, Repr

/-- The token payload returned by POST /auth/token/. -/
structure TokenResp where
  access : String
  refresh : String
  deriving DecidableEq, Repr

/-- The shape of an axios error as the catch block of login reads it:
whether a response arrived, the detail and error fields of its data and
the serialized data when the data is truthy, and whether a request object
exists. -/
structure AxiosErr where
  hasResponse : Bool
  dataDetail : Option String
  dataError : Option String
  dataText : Option String
  hasRequest : Bool
  deriving DecidableEq, Repr

/-- Backend environment for one call to login: the outcome of the
authentication POST and the outcome of the profile GET (none models a
thrown profile fetch). -/
structure AuthEnv where
  loginResp : Except AxiosErr TokenResp
  profileResp : Option Profile

/-- The message derivation of the catch block of login, useAuth.ts lines
176 to 196: a response with truthy data yields detail, else error, else
the serialized data; a response without data keeps the generic message; no
response but a request yields the no-response message; otherwise the
generic message. -/
def deriveLoginMessage (e : AxiosErr) : String :=
  if e.hasResponse then
    match e.dataText with
    | some s => jsOr e.dataDetail (jsOr e.dataError s)
    | none => "Login failed. Please try again."
  else if e.hasRequest then
    "No response from server. Please check your connection."
  else "Login failed. Please try again."

/-- Embedding of the JavaScript expression email.split(at)[0]. -/
def emailLocal (e : String) : String := (e.splitOn "@").headD ""

/-- The result value of login: the success flag, the human-readable
message, and the user record on success. -/
structure LoginResult where
  success : Bool
  message : String
  user : Option SessionUser
  deriving DecidableEq, Repr

/-- The user record built by login when the profile fetch succeeds,
useAuth.ts lines 124 to 143: the backend user_type falls back to the
caller role when absent or empty, the role is normalized to client unless
the value is exactly client or designer, and the remaining fields fall
back to values derived from the login inputs. -/
def loginProfileUser (p : Profile) (email : String) (role : UserRole) : SessionUser :=
  let backendRole := jsOr p.user_type (roleToString role)
  let userRole : UserRole :=
    if backendRole == "client" then UserRole.client
    else if backendRole == "designer" then UserRole.designer
    else UserRole.client
  { id := jsOr p.id "temp-id"
    email := jsOr p.email email
    role := userRole
    firstName := jsOr p.first_name (emailLocal email)
    lastName := some (jsOr p.last_name "")
    phone := some (jsOr p.phone "")
    user_type := backendRole
    isActive := true }

/-- The fallback user record built by login when the profile fetch fails,
useAuth.ts lines 150 to 157: built from the login inputs only. -/
def loginFallbackUser (email : String) (role : UserRole) : SessionUser :=
  { id := "temp-id"
    email := email
    role := role
    firstName := emailLocal email
    lastName := none
    phone := none
    user_type := roleToString role
    isActive := true }

/-- The login flow of useAuth.ts lines 113 to 198: on auth failure return
a failure result with a derived message and change nothing; on auth
success store the token pair, build the user record from the profile (or
the fallback record when the profile fetch fails), persist the session,
and navigate to the designer dashboard when the stored role is designer
and to the client home otherwise. -/
def login (env : AuthEnv) (st : AuthState) (email _password : String)
    (role : UserRole) : AuthState × LoginResult × Option Route :=
  match env.loginResp with
  | Except.error e =>
      (st, { success := false, message := deriveLoginMessage e, user := none }, none)
  | Except.ok tk =>
      let st1 := { st with access := some tk.access, refresh := some tk.refresh }
      let userData :=
        match env.profileResp with
        | some p => loginProfileUser p email role
        | none => loginFallbackUser email role
      let st2 := setUserSession st1 userData (some (tk.access, tk.refresh))
      let dest := if userData.role == UserRole.designer
        then Route.designerDashboard else Route.tabsHome
      (st2, { success := true, message := "Login successful", user := some userData },
       some dest)

/-- The token clearing inside authService.logout of api.ts lines 94 to
101: the finally block deletes access_token and refresh_token; no remote
call is made. -/
def authServiceLogout (st : AuthState) : AuthState :=
  { st with access := none, refresh := none }

/-- The logout flow of useAuth.ts lines 92 to 100: a best-effort call to
authService.logout whose failure is swallowed (remoteThrows models the
hypothetical failure of that step), then unconditionally clearAuthTokens,
removal of the async-storage keys userRole, isLoggedIn and current_user,
and navigation to the login route. -/
def logout (remoteThrows : Bool) (st : AuthState) : AuthState × Route :=
  let st1 := if remoteThrows then st else authServiceLogout st
  let st2 := clearAuthTokens st1
  let st3 := { st2 with roleKey := none, authKey := none, asyncUser := none }
  (st3, Route.loginRoute)

/-! ## Theorems about the session manager -/

/-- Claim C6: after a successful login whose profile carries user_type
designer, the stored session role is designer and the destination is the
designer dashboard; after a successful login whose profile carries the
unrecognized user_type admin, the stored session role is client. -/
theorem C6_role_mapping
    (envA envB : AuthEnv) (st : AuthState) (email pw : String)
    (roleA roleB : UserRole) (tkA tkB : TokenResp) (pA pB : Profile)
    (hloginA : envA.loginResp = Except.ok tkA)
    (hprofA : envA.profileResp = some pA)
    (hutA : pA.user_type = some "designer")
    (hloginB : envB.loginResp = Except.ok tkB)
    (hprofB : envB.profileResp = some pB)
    (hutB : pB.user_type = some "admin") :
    (login envA st email pw roleA).1.roleKey = some "designer" ∧
    ((login envA st email pw roleA).1.secureUser).map SessionUser.role
      = some UserRole.designer ∧
    (login envA st email pw roleA).2.2 = some Route.designerDashboard ∧
    (login envB st email pw roleB).1.roleKey = some "client" ∧
    ((login envB st email pw roleB).1.secureUser).map SessionUser.role
      = some UserRole.client := by
  simp [login, hloginA, hprofA, hutA, hloginB, hprofB, hutB, loginProfileUser,
    setUserSession, jsOr, roleToString,
    (by decide : (("designer" : String).isEmpty) = false),
    (by decide : (("admin" : String).isEmpty) = false),
    (by decide : (("designer" : String) == "client") = false),
    (by decide : (("designer" : String) == "designer") = true),
    (by decide : (("admin" : String) == "client") = false),
    (by decide : (("admin" : String) == "designer") = false)]

/-- Concrete environment for the C6 witness, designer branch. -/
def envC6A : AuthEnv :=
  { loginResp := Except.ok { access := "a6", refresh := "r6" },
    profileResp := some
      { id := some "7", email := some "d@x.com", user_type := some "designer",
        first_name := none, last_name := none, phone := none } }

/-- Concrete environment for the C6 witness, unrecognized-role branch. -/
def envC6B : AuthEnv :=
  { loginResp := Except.ok { access := "a6b", refresh := "r6b" },
    profileResp := some
      { id := some "8", email := some "ad@x.com", user_type := some "admin",
        first_name := none, last_name := none, phone := none } }

/-- Concrete empty initial state for the session-manager witnesses. -/
def stAuth0 : AuthState :=
  { access := none, refresh := none, secureUser := none, asyncUser := none,
    roleKey := none, authKey := none }

/-- Witness for claim C6 at concrete scenarios. -/
theorem C6_role_mapping_witness :
    (envC6A.loginResp = Except.ok { access := "a6", refresh := "r6" } ∧
     envC6A.profileResp.map Profile.user_type = some (some "designer") ∧
     envC6B.loginResp = Except.ok { access := "a6b", refresh := "r6b" } ∧
     envC6B.profileResp.map Profile.user_type = some (some "admin")) ∧
    ((login envC6A stAuth0 "a@b.com" "pw" UserRole.designer).1.roleKey
       = some "designer" ∧
     ((login envC6A stAuth0 "a@b.com" "pw" UserRole.designer).1.secureUser).map
       SessionUser.role = some UserRole.designer ∧
     (login envC6A stAuth0 "a@b.com" "pw" UserRole.designer).2.2
       = some Route.designerDashboard ∧
     (login envC6B stAuth0 "a@b.com" "pw" UserRole.designer).1.roleKey
       = some "client" ∧
     ((login envC6B stAuth0 "a@b.com" "pw" UserRole.designer).1.secureUser).map
       SessionUser.role = some UserRole.client) :=
  ⟨⟨rfl, rfl, rfl, rfl⟩,
   C6_role_mapping envC6A envC6B stAuth0 "a@b.com" "pw" UserRole.designer
     UserRole.designer { access := "a6", refresh := "r6" }
     { access := "a6b", refresh := "r6b" }
     { id := some "7", email := some "d@x.com", user_type := some "designer",
       first_name := none, last_name := none, phone := none }
     { id := some "8", email := some "ad@x.com", user_type := some "admin",
       first_name := none, last_name := none, phone := none }
     rfl rfl rfl rfl rfl rfl⟩

/-- Concrete environment for the C7 counterexample: auth succeeds, the
profile carries the unrecognized user_type admin. -/
def envC7 : AuthEnv :=
  { loginResp := Except.ok { access := "acc7", refresh := "ref7" },
    profileResp := some
      { id := some "42", email := some "a@b.com", user_type := some "admin",
        first_name := none, last_name := none, phone := none } }

/-- Counterexample to claim C7: the caller supplies the role designer and
the backend role field is the unrecognized value admin; the stored session
role is client, not the caller-supplied designer, so the session role does
not default to the caller-supplied role argument. -/
theorem C7_counterexample :
    ((login envC7 stAuth0 "a@b.com" "pw" UserRole.designer).1.secureUser).map
      SessionUser.role = some UserRole.client ∧
    ((login envC7 stAuth0 "a@b.com" "pw" UserRole.designer).1.secureUser).map
      SessionUser.role ≠ some UserRole.designer ∧
    (login envC7 stAuth0 "a@b.com" "pw" UserRole.designer).1.roleKey
      = some "client" := by decide

/-- Claim C7 (amended): when the profile fetch succeeds and the backend
role field is present, nonempty and not in the set of client and designer,
the session role defaults to client; the caller-supplied role argument is
used only when the backend role field is absent or empty. -/
theorem C7_amended_invalid_role_defaults_client
    (env envB : AuthEnv) (st : AuthState) (email pw : String)
    (role roleB : UserRole) (tk tkB : TokenResp) (p pB : Profile) (s : String)
    (hlogin : env.loginResp = Except.ok tk)
    (hprof : env.profileResp = some p)
    (hut : p.user_type = some s)
    (hse : s.isEmpty = false)
    (hnc : (s == "client") = false)
    (hnd : (s == "designer") = false)
    (hloginB : envB.loginResp = Except.ok tkB)
    (hprofB : envB.profileResp = some pB)
    (hutB : pB.user_type = none) :
    ((login env st email pw role).1.secureUser).map SessionUser.role
      = some UserRole.client ∧
    (login env st email pw role).1.roleKey = some "client" ∧
    ((login envB st email pw roleB).1.secureUser).map SessionUser.role
      = some roleB ∧
    (login envB st email pw roleB).1.roleKey = some (roleToString roleB) := by
  have hnc2 : s ≠ "client" := by
    intro h; rw [h] at hnc; simp at hnc
  have hnd2 : s ≠ "designer" := by
    intro h; rw [h] at hnd; simp at hnd
  refine ⟨?_, ?_, ?_, ?_⟩
  · simp [login, hlogin, hprof, loginProfileUser, setUserSession, jsOr, hut,
      hse, hnc, hnd, hnc2, hnd2, roleToString]
  · simp [login, hlogin, hprof, loginProfileUser, setUserSession, jsOr, hut,
      hse, hnc, hnd, hnc2, hnd2, roleToString]
  · cases roleB <;>
      simp [login, hloginB, hprofB, loginProfileUser, setUserSession, jsOr,
        hutB, roleToString]
  · cases roleB <;>
      simp [login, hloginB, hprofB, loginProfileUser, setUserSession, jsOr,
        hutB, roleToString]

/-- Concrete environment for the C7 witness, absent-role branch. -/
def envC7B : AuthEnv :=
  { loginResp := Except.ok { access := "a7b", refresh := "r7b" },
    profileResp := some
      { id := none, email := none, user_type := none,
        first_name := none, last_name := none, phone := none } }

/-- Witness for the amended claim C7 at concrete scenarios. -/
theorem C7_amended_invalid_role_defaults_client_witness :
    (envC7.loginResp = Except.ok { access := "acc7", refresh := "ref7" } ∧
     envC7.profileResp.map Profile.user_type = some (some "admin") ∧
     (("admin" : String).isEmpty) = false ∧
     (("admin" : String) == "client") = false ∧
     (("admin" : String) == "designer") = false ∧
     envC7B.profileResp.map Profile.user_type = some none) ∧
    (((login envC7 stAuth0 "a@b.com" "pw" UserRole.designer).1.secureUser).map
       SessionUser.role = some UserRole.client ∧
     (login envC7 stAuth0 "a@b.com" "pw" UserRole.designer).1.roleKey
       = some "client" ∧
     ((login envC7B stAuth0 "a@b.com" "pw" UserRole.designer).1.secureUser).map
       SessionUser.role = some UserRole.designer ∧
     (login envC7B stAuth0 "a@b.com" "pw" UserRole.designer).1.roleKey
       = some (roleToString UserRole.designer)) :=
  ⟨⟨rfl, rfl, by decide, by decide, by decide, rfl⟩,
   C7_amended_invalid_role_defaults_client envC7 envC7B stAuth0 "a@b.com" "pw"
     UserRole.designer UserRole.designer { access := "acc7", refresh := "ref7" }
     { access := "a7b", refresh := "r7b" }
     { id := some "42", email := some "a@b.com", user_type := some "admin",
       first_name := none, last_name := none, phone := none }
     { id := none, email := none, user_type := none,
       first_name := none, last_name := none, phone := none }
     "admin" rfl rfl rfl (by decide) (by decide) (by decide) rfl rfl rfl⟩

/-- Claim C8: every call to logout, whether the best-effort remote step
succeeds or throws, clears the access token, the refresh token, both
copies of the session record, the role flag and the logged-in flag, and
navigates to the login destination. -/
theorem C8_logout_always_clears (remoteThrows : Bool) (st : AuthState) :
    (logout remoteThrows st).1.access = none ∧
    (logout remoteThrows st).1.refresh = none ∧
    (logout remoteThrows st).1.secureUser = none ∧
    (logout remoteThrows st).1.asyncUser = none ∧
    (logout remoteThrows st).1.roleKey = none ∧
    (logout remoteThrows st).1.authKey = none ∧
    (logout remoteThrows st).2 = Route.loginRoute := by
  cases remoteThrows <;>
    simp [logout, authServiceLogout, clearAuthTokens]

/-- Claim C9: when the authentication call succeeds but the profile fetch
fails, login still returns a success result and persists the minimal
session built from the login inputs, with the email taken from the
argument and the role equal to the caller-supplied role. -/
theorem C9_profile_failure_graceful
    (env : AuthEnv) (st : AuthState) (email pw : String) (role : UserRole)
    (tk : TokenResp)
    (hlogin : env.loginResp = Except.ok tk)
    (hprof : env.profileResp = none) :
    (login env st email pw role).2.1.success = true ∧
    (login env st email pw role).2.1.user = some (loginFallbackUser email role) ∧
    (loginFallbackUser email role).email = email ∧
    (loginFallbackUser email role).role = role ∧
    (login env st email pw role).1.secureUser = some (loginFallbackUser email role) ∧
    (login env st email pw role).1.asyncUser = some (loginFallbackUser email role) ∧
    (login env st email pw role).1.roleKey = some (roleToString role) ∧
    (login env st email pw role).1.authKey = some "true" ∧
    (login env st email pw role).1.access = some tk.access ∧
    (login env st email pw role).1.refresh = some tk.refresh := by
  simp [login, hlogin, hprof, setUserSession, loginFallbackUser]

/-- Concrete environment for the C9 witness: auth succeeds, the profile
fetch fails. -/
def envC9 : AuthEnv :=
  { loginResp := Except.ok { access := "a9", refresh := "r9" },
    profileResp := none }

/-- Witness for claim C9 at a concrete scenario. -/
theorem C9_profile_failure_graceful_witness :
    (envC9.loginResp = Except.ok { access := "a9", refresh := "r9" } ∧
     envC9.profileResp = none) ∧
    ((login envC9 stAuth0 "me@x.com" "pw" UserRole.designer).2.1.success = true ∧
     (login envC9 stAuth0 "me@x.com" "pw" UserRole.designer).2.1.user
       = some (loginFallbackUser "me@x.com" UserRole.designer) ∧
     (loginFallbackUser "me@x.com" UserRole.designer).email = "me@x.com" ∧
     (loginFallbackUser "me@x.com" UserRole.designer).role = UserRole.designer ∧
     (login envC9 stAuth0 "me@x.com" "pw" UserRole.designer).1.secureUser
       = some (loginFallbackUser "me@x.com" UserRole.designer) ∧
     (login envC9 stAuth0 "me@x.com" "pw" UserRole.designer).1.asyncUser
       = some (loginFallbackUser "me@x.com" UserRole.designer) ∧
     (login envC9 stAuth0 "me@x.com" "pw" UserRole.designer).1.roleKey
       = some (roleToString UserRole.designer) ∧
     (login envC9 stAuth0 "me@x.com" "pw" UserRole.designer).1.authKey
       = some "true" ∧
     (login envC9 stAuth0 "me@x.com" "pw" UserRole.designer).1.access = some "a9" ∧
     (login envC9 stAuth0 "me@x.com" "pw" UserRole.designer).1.refresh = some "r9") :=
  ⟨⟨rfl, rfl⟩,
   C9_profile_failure_graceful envC9 stAuth0 "me@x.com" "pw" UserRole.designer
     { access := "a9", refresh := "r9" } rfl rfl⟩

/-- Claim C10: when the initial authentication call of login fails, login
returns a failure result carrying a derived message, no navigation is
signalled, and the persisted state is returned unchanged: no token, no
session record, no role flag and no logged-in flag is written. -/
theorem C10_auth_failure_no_writes
    (env : AuthEnv) (st : AuthState) (email pw : String) (role : UserRole)
    (e : AxiosErr)
    (hlogin : env.loginResp = Except.error e) :
    login env st email pw role
      = (st, { success := false, message := deriveLoginMessage e, user := none },
         none) := by
  simp [login, hlogin]

/-- Concrete error for the C10 witness: a 401-style response whose data
carries a detail field. -/
def errC10 : AxiosErr :=
  { hasResponse := true, dataDetail := some "Invalid credentials",
    dataError := none, dataText := some "raw", hasRequest := true }

/-- Concrete environment for the C10 witness: the authentication POST
fails. -/
def envC10 : AuthEnv :=
  { loginResp := Except.error errC10, profileResp := none }

/-- Concrete non-empty initial state for the C10 witness, showing the
state is returned unchanged. -/
def stC10 : AuthState :=
  { access := some "keptA", refresh := some "keptR", secureUser := none,
    asyncUser := none, roleKey := some "client", authKey := some "true" }

/-- Witness for claim C10 at a concrete scenario. -/
theorem C10_auth_failure_no_writes_witness :
    envC10.loginResp = Except.error errC10 ∧
    login envC10 stC10 "a@b.com" "pw" UserRole.client
      = (stC10,
         { success := false, message := deriveLoginMessage errC10, user := none },
         none) :=
  ⟨rfl,
   C10_auth_failure_no_writes envC10 stC10 "a@b.com" "pw" UserRole.client errC10
     rfl⟩

end HouseFront
